import Mathlib

/-!
Verification of the statutory tax computation engine of the
`femilearnsai/Ai-group-project` repository.

The engine lives in `src/frontend/utils.js` (`calculatePIT`, `calculateCIT`),
`src/frontend/constants.js` (`PIT_BRACKETS`, `CIT_RATES`,
`STATUTORY_CITATIONS`), the dispatcher in the `CalculatorDashboard`
component (`results` useMemo), and the citation selector in
`LegalBasisSection.jsx` (`relevantCitations`).

Monetary amounts and rates are modelled as exact rationals (`ℚ`), following
the spec's data model (§3 Money: a decimal representation that avoids binary
floating-point error accumulation); the decimal literals below denote the
exact decimal values written in the source constants.
-/

/-- One entry of `PIT_BRACKETS` (constants.js). `limit = none` models the
JavaScript `Infinity` upper bound of the terminal band. -/
structure RateBand where
  limit : Option ℚ
  rate : ℚ
  citation : String
deriving Repr, DecidableEq

/-- One element the loop in `calculatePIT` pushes onto `breakdown`. -/
structure LineItem where
  label : String
  rate : ℚ
  amount : ℚ
  tax : ℚ
  citation : String
deriving Repr, DecidableEq

/-- The progressive Personal Income Tax table `PIT_BRACKETS` (constants.js,
lines 3–10). -/
def PIT_BRACKETS : List RateBand :=
  [ ⟨some 800000, 0, "NTA 2025 s.56(1)"⟩,
    ⟨some 3000000, 0.15, "NTA 2025 s.56(2)"⟩,
    ⟨some 12000000, 0.18, "NTA 2025 s.56(3)"⟩,
    ⟨some 25000000, 0.21, "NTA 2025 s.56(4)"⟩,
    ⟨some 50000000, 0.23, "NTA 2025 s.56(5)"⟩,
    ⟨none, 0.25, "NTA 2025 s.56(6)"⟩ ]

/-- `Math.max(0, Math.min(remaining, bracket.limit - prevLimit))` from
`calculatePIT`.  For the `Infinity` band, `limit - prevLimit` is `Infinity`
and `min remaining Infinity = remaining`. -/
def bracketTaxable (b : RateBand) (remaining prevLimit : ℚ) : ℚ :=
  match b.limit with
  | some l => max 0 (min remaining (l - prevLimit))
  | none => max 0 remaining

/-- The line-item label from `calculatePIT` (locale digit grouping of the
JavaScript `toLocaleString` is elided; the numeric bounds are rendered
directly). -/
def bracketLabel (b : RateBand) (prevLimit : ℚ) : String :=
  match b.limit with
  | some l => "₦" ++ toString (prevLimit + 1) ++ " - ₦" ++ toString l
  | none => "Above ₦" ++ toString prevLimit

/-- Result record of `calculatePIT`. -/
structure PITResult where
  totalTax : ℚ
  breakdown : List LineItem
deriving Repr, DecidableEq

/-- The `for (const bracket of PIT_BRACKETS)` loop of `calculatePIT`
(utils.js lines 17–35), as a recursion over the bracket list carrying the
mutable state `(remaining, prevLimit, totalTax, breakdown)`.

The source sets `prevLimit = bracket.limit` even for the `Infinity` band; we
keep the previous value there, which is never read: after any band with
`limit = none` the new remainder is `remaining - max 0 remaining ≤ 0`, so the
`if (remaining <= 0) break` always fires before another band is consulted. -/
def pitLoop : List RateBand → ℚ → ℚ → ℚ → List LineItem → PITResult
  | [], _remaining, _prevLimit, totalTax, breakdown => ⟨totalTax, breakdown⟩
  | b :: rest, remaining, prevLimit, totalTax, breakdown =>
    let taxableInThisBracket := bracketTaxable b remaining prevLimit
    let taxForBracket := taxableInThisBracket * b.rate
    let breakdown2 :=
      if 0 < taxableInThisBracket then
        breakdown ++
          [⟨bracketLabel b prevLimit, b.rate, taxableInThisBracket,
            taxForBracket, b.citation⟩]
      else breakdown
    let totalTax2 := totalTax + taxForBracket
    let remaining2 := remaining - taxableInThisBracket
    let prevLimit2 := match b.limit with
      | some l => l
      | none => prevLimit
    if remaining2 ≤ 0 then ⟨totalTax2, breakdown2⟩
    else pitLoop rest remaining2 prevLimit2 totalTax2 breakdown2

/-- `calculatePIT` (utils.js lines 11–38). -/
def calculatePIT (taxableIncome : ℚ) : PITResult :=
  pitLoop PIT_BRACKETS taxableIncome 0 0 []

/-- The corporate rate table `CIT_RATES` (constants.js lines 12–18). -/
structure CITRates where
  SMALL : ℚ
  OTHERS : ℚ
  DEV_LEVY : ℚ
  MIN_EFFECTIVE_RATE : ℚ
  CGT_COMPANY : ℚ
deriving Repr, DecidableEq

def CIT_RATES : CITRates :=
  { SMALL := 0
    OTHERS := 0.30
    DEV_LEVY := 0.04
    MIN_EFFECTIVE_RATE := 0.15
    CGT_COMPANY := 0.30 }

/-- Result record of `calculateCIT`. -/
structure CITResult where
  citPayable : ℚ
  devLevy : ℚ
  companyCGT : ℚ
  topUpTax : ℚ
  totalCompanyTax : ℚ
  minTaxFloor : ℚ
deriving Repr, DecidableEq

/-- `calculateCIT` (utils.js lines 40–53). -/
def calculateCIT (profitBeforeTax : ℚ) (isSmallCompany : Bool)
    (cgtGains : ℚ) : CITResult :=
  let baseRate := if isSmallCompany then CIT_RATES.SMALL else CIT_RATES.OTHERS
  let citPayable := profitBeforeTax * baseRate
  let devLevy := profitBeforeTax * CIT_RATES.DEV_LEVY
  let companyCGT := cgtGains * CIT_RATES.CGT_COMPANY
  let combinedCurrentTax := citPayable + devLevy
  let minTaxFloor := profitBeforeTax * CIT_RATES.MIN_EFFECTIVE_RATE
  let topUpTax := max 0 (minTaxFloor - combinedCurrentTax)
  let totalCompanyTax := combinedCurrentTax + topUpTax + companyCGT
  ⟨citPayable, devLevy, companyCGT, topUpTax, totalCompanyTax, minTaxFloor⟩

/-- The calculator input record (`INITIAL_CALC_INPUTS` shape, constants.js;
the fields read by the `results` useMemo of `CalculatorDashboard`). -/
structure Inputs where
  grossIncome : ℚ
  deductions : ℚ
  cgtGains : ℚ
  whtCredits : ℚ
  isSmallCompany : Bool
  profitBeforeTax : ℚ
deriving Repr, DecidableEq

/-- The object returned by the Individual/Advisor branch of the `results`
useMemo in `CalculatorDashboard`. -/
structure IndividualResults where
  taxableBase : ℚ
  pitTax : ℚ
  pitBreakdown : List LineItem
  cgtTax : ℚ
  totalLiability : ℚ
  netPayable : ℚ
  gross : ℚ
  netIncome : ℚ
deriving Repr, DecidableEq

/-- The object returned by the company branch of the `results` useMemo in
`CalculatorDashboard` (the spread of `calculateCIT`'s result plus the four
derived fields). -/
structure CompanyResults where
  citPayable : ℚ
  devLevy : ℚ
  companyCGT : ℚ
  topUpTax : ℚ
  totalCompanyTax : ℚ
  minTaxFloor : ℚ
  totalLiability : ℚ
  netPayable : ℚ
  gross : ℚ
  netIncome : ℚ
deriving Repr, DecidableEq

/-- The category-tagged result of the dispatcher. -/
inductive Results where
  | individual : IndividualResults → Results
  | company : CompanyResults → Results
deriving Repr, DecidableEq

/-- The `results` useMemo of `CalculatorDashboard` (src/unnamed/part_001,
lines 204–232): the dispatcher selecting the computation by the `role`
string. -/
def computeResults (role : String) (inputs : Inputs) : Results :=
  if role = "Individual" ∨ role = "Advisor" then
    let taxableBase := max 0 (inputs.grossIncome - inputs.deductions)
    let pit := calculatePIT taxableBase
    let cgt := calculatePIT inputs.cgtGains
    let totalLiability := pit.totalTax + cgt.totalTax
    let netPayable := max 0 (totalLiability - inputs.whtCredits)
    Results.individual
      { taxableBase := taxableBase
        pitTax := pit.totalTax
        pitBreakdown := pit.breakdown
        cgtTax := cgt.totalTax
        totalLiability := totalLiability
        netPayable := netPayable
        gross := inputs.grossIncome + inputs.cgtGains
        netIncome := (inputs.grossIncome + inputs.cgtGains) - totalLiability }
  else
    let r := calculateCIT inputs.profitBeforeTax inputs.isSmallCompany
      inputs.cgtGains
    let netPayable := max 0 (r.totalCompanyTax - inputs.whtCredits)
    Results.company
      { citPayable := r.citPayable
        devLevy := r.devLevy
        companyCGT := r.companyCGT
        topUpTax := r.topUpTax
        totalCompanyTax := r.totalCompanyTax
        minTaxFloor := r.minTaxFloor
        totalLiability := r.totalCompanyTax
        netPayable := netPayable
        gross := inputs.profitBeforeTax + inputs.cgtGains
        netIncome := (inputs.profitBeforeTax + inputs.cgtGains)
          - r.totalCompanyTax }

/-- A statutory citation entry of `STATUTORY_CITATIONS` (constants.js). -/
structure Citation where
  code : String
  desc : String
deriving Repr, DecidableEq

namespace STATUTORY_CITATIONS

def PIT_GENERAL : Citation :=
  ⟨"NTA 2025 s.56",
   "Establishes progressive Personal Income Tax rates for individuals."⟩

def CIT_STANDARD : Citation :=
  ⟨"NTA 2025 s.12",
   "Provides for the standard Company Income Tax rate of 30%."⟩

def CIT_SMALL : Citation :=
  ⟨"NTA 2025 s.14",
   "Grants 0% CIT exemption for Small Companies to stimulate growth."⟩

def DEV_LEVY : Citation :=
  ⟨"NTA 2025 s.58",
   "Imposes a 4% Development Levy on corporate profits for infrastructure."⟩

def MIN_TAX_FLOOR : Citation :=
  ⟨"NTA 2025 s.22",
   "Ensures a 15% Minimum Effective Tax rate for large corporations."⟩

def CGT_COMPANY : Citation :=
  ⟨"NTA 2025 s.30",
   "Sets Capital Gains Tax rate for companies at 30%."⟩

def CGT_INDIVIDUAL : Citation :=
  ⟨"NTA 2025 s.56",
   "Individuals capital gains are integrated into PIT progressive brackets."⟩

def WHT_CREDIT : Citation :=
  ⟨"NTAA 2025 s.51",
   "Allows for the utilization of Withholding Tax as credits against tax due."⟩

end STATUTORY_CITATIONS

/-- The `relevantCitations` useMemo of `LegalBasisSection.jsx`
(lines 8–21). -/
def relevantCitations (role : String) (inputs : Inputs) : List Citation :=
  let base :=
    if role = "Individual" ∨ role = "Advisor" then
      [STATUTORY_CITATIONS.PIT_GENERAL] ++
        (if 0 < inputs.cgtGains then [STATUTORY_CITATIONS.CGT_INDIVIDUAL]
         else [])
    else
      [(if inputs.isSmallCompany then STATUTORY_CITATIONS.CIT_SMALL
        else STATUTORY_CITATIONS.CIT_STANDARD),
       STATUTORY_CITATIONS.DEV_LEVY,
       STATUTORY_CITATIONS.MIN_TAX_FLOOR] ++
        (if 0 < inputs.cgtGains then [STATUTORY_CITATIONS.CGT_COMPANY]
         else [])
  base ++ (if 0 < inputs.whtCredits then [STATUTORY_CITATIONS.WHT_CREDIT]
           else [])

/-- Closed-form reference for the progressive table: the sum over bands of
`rate * (overlap of the interval from 0 to x with the band)`, each band
taken independently; the terminal band has no finite ceiling. -/
def refTaxPIT (x : ℚ) : ℚ :=
  0 * max 0 (min x 800000 - 0)
  + 0.15 * max 0 (min x 3000000 - 800000)
  + 0.18 * max 0 (min x 12000000 - 3000000)
  + 0.21 * max 0 (min x 25000000 - 12000000)
  + 0.23 * max 0 (min x 50000000 - 25000000)
  + 0.25 * max 0 (x - 50000000)
/-- The allocator's total tax agrees with the closed-form per-band overlap
sum on every non-negative input.  Shared helper for the coverage and
monotonicity claims. -/
theorem calculatePIT_totalTax_eq_ref (x : ℚ) (hx : 0 ≤ x) :
    (calculatePIT x).totalTax = refTaxPIT x := by
  have b1 : max (0 : ℚ) (800000 : ℚ) = 800000 := max_eq_right (by norm_num)
  have b2 : max (0 : ℚ) (2200000 : ℚ) = 2200000 := max_eq_right (by norm_num)
  have b3 : max (0 : ℚ) (9000000 : ℚ) = 9000000 := max_eq_right (by norm_num)
  have b4 : max (0 : ℚ) (13000000 : ℚ) = 13000000 := max_eq_right (by norm_num)
  have b5 : max (0 : ℚ) (25000000 : ℚ) = 25000000 := max_eq_right (by norm_num)
  have c1 : max (0 : ℚ) (3000000 - 800000 : ℚ) = 2200000 := by norm_num
  have c2 : max (0 : ℚ) (12000000 - 3000000 : ℚ) = 9000000 := by norm_num
  have c3 : max (0 : ℚ) (25000000 - 12000000 : ℚ) = 13000000 := by norm_num
  have c4 : max (0 : ℚ) (50000000 - 25000000 : ℚ) = 25000000 := by norm_num
  rcases le_or_lt x 800000 with h1 | h1
  · have a1 : min x (800000 - 0 : ℚ) = x := min_eq_left (by linarith)
    have a2 : max (0 : ℚ) x = x := max_eq_right hx
    have f1 : min x (3000000 : ℚ) = x := min_eq_left (by linarith)
    have f2 : max (0 : ℚ) (x - 800000) = 0 := max_eq_left (by linarith)
    have f3 : min x (12000000 : ℚ) = x := min_eq_left (by linarith)
    have f4 : max (0 : ℚ) (x - 3000000) = 0 := max_eq_left (by linarith)
    have f5 : min x (25000000 : ℚ) = x := min_eq_left (by linarith)
    have f6 : max (0 : ℚ) (x - 12000000) = 0 := max_eq_left (by linarith)
    have f7 : min x (50000000 : ℚ) = x := min_eq_left (by linarith)
    have f8 : max (0 : ℚ) (x - 25000000) = 0 := max_eq_left (by linarith)
    have f9 : max (0 : ℚ) (x - 50000000) = 0 := max_eq_left (by linarith)
    have g1 : min x (800000 : ℚ) = x := min_eq_left (by linarith)
    simp only [calculatePIT, PIT_BRACKETS, pitLoop, bracketTaxable, refTaxPIT,
      a1, a2, f1, f2, f3, f4, f5, f6, f7, f8, f9, g1,
      sub_self, le_refl, if_true, if_false]
    ring
  · have a1 : min x (800000 - 0 : ℚ) = 800000 := by
      rw [show (800000 - 0 : ℚ) = 800000 by norm_num]
      exact min_eq_right (by linarith)
    have a3 : ¬(x - 800000 ≤ 0) := by linarith
    have g1 : min x (800000 : ℚ) = 800000 := min_eq_right (by linarith)
    rcases le_or_lt x 3000000 with h2 | h2
    · have a4 : min (x - 800000) (3000000 - 800000 : ℚ) = x - 800000 :=
        min_eq_left (by linarith)
      have a5 : max (0 : ℚ) (x - 800000) = x - 800000 := max_eq_right (by linarith)
      have f1 : min x (3000000 : ℚ) = x := min_eq_left (by linarith)
      have f2 : min x (12000000 : ℚ) = x := min_eq_left (by linarith)
      have f3 : max (0 : ℚ) (x - 3000000) = 0 := max_eq_left (by linarith)
      have f4 : min x (25000000 : ℚ) = x := min_eq_left (by linarith)
      have f5 : max (0 : ℚ) (x - 12000000) = 0 := max_eq_left (by linarith)
      have f6 : min x (50000000 : ℚ) = x := min_eq_left (by linarith)
      have f7 : max (0 : ℚ) (x - 25000000) = 0 := max_eq_left (by linarith)
      have f8 : max (0 : ℚ) (x - 50000000) = 0 := max_eq_left (by linarith)
      simp only [calculatePIT, PIT_BRACKETS, pitLoop, bracketTaxable, refTaxPIT,
        a1, a3, a4, a5, b1, f1, f2, f3, f4, f5, f6, f7, f8, g1,
        sub_self, le_refl, if_true, if_false]
      ring
    · have a4 : min (x - 800000) (3000000 - 800000 : ℚ) = 2200000 := by
        rw [show (3000000 - 800000 : ℚ) = 2200000 by norm_num]
        exact min_eq_right (by linarith)
      have a6 : ¬(x - 800000 - 2200000 ≤ 0) := by linarith
      have g2 : min x (3000000 : ℚ) = 3000000 := min_eq_right (by linarith)
      have g2b : max (0 : ℚ) (x - 800000) = x - 800000 := max_eq_right (by linarith)
      rcases le_or_lt x 12000000 with h3 | h3
      · have a7 : min (x - 800000 - 2200000) (12000000 - 3000000 : ℚ)
            = x - 800000 - 2200000 := min_eq_left (by linarith)
        have a8 : max (0 : ℚ) (x - 800000 - 2200000) = x - 800000 - 2200000 :=
          max_eq_right (by linarith)
        have f1 : min x (12000000 : ℚ) = x := min_eq_left (by linarith)
        have f2 : max (0 : ℚ) (x - 3000000) = x - 3000000 := max_eq_right (by linarith)
        have f3 : min x (25000000 : ℚ) = x := min_eq_left (by linarith)
        have f4 : max (0 : ℚ) (x - 12000000) = 0 := max_eq_left (by linarith)
        have f5 : min x (50000000 : ℚ) = x := min_eq_left (by linarith)
        have f6 : max (0 : ℚ) (x - 25000000) = 0 := max_eq_left (by linarith)
        have f7 : max (0 : ℚ) (x - 50000000) = 0 := max_eq_left (by linarith)
        simp only [calculatePIT, PIT_BRACKETS, pitLoop, bracketTaxable, refTaxPIT,
          a1, a3, a4, a6, a7, a8, b1, b2, c1, c2, c3, c4, f1, f2, f3, f4, f5, f6, f7, g1, g2, g2b,
          sub_self, le_refl, if_true, if_false]
        ring
      · have a7 : min (x - 800000 - 2200000) (12000000 - 3000000 : ℚ) = 9000000 := by
          rw [show (12000000 - 3000000 : ℚ) = 9000000 by norm_num]
          exact min_eq_right (by linarith)
        have a9 : ¬(x - 800000 - 2200000 - 9000000 ≤ 0) := by linarith
        have g3 : min x (12000000 : ℚ) = 12000000 := min_eq_right (by linarith)
        have g3b : max (0 : ℚ) (x - 3000000) = x - 3000000 := max_eq_right (by linarith)
        rcases le_or_lt x 25000000 with h4 | h4
        · have a10 : min (x - 800000 - 2200000 - 9000000) (25000000 - 12000000 : ℚ)
              = x - 800000 - 2200000 - 9000000 := min_eq_left (by linarith)
          have a11 : max (0 : ℚ) (x - 800000 - 2200000 - 9000000)
              = x - 800000 - 2200000 - 9000000 := max_eq_right (by linarith)
          have f1 : min x (25000000 : ℚ) = x := min_eq_left (by linarith)
          have f2 : max (0 : ℚ) (x - 12000000) = x - 12000000 := max_eq_right (by linarith)
          have f3 : min x (50000000 : ℚ) = x := min_eq_left (by linarith)
          have f4 : max (0 : ℚ) (x - 25000000) = 0 := max_eq_left (by linarith)
          have f5 : max (0 : ℚ) (x - 50000000) = 0 := max_eq_left (by linarith)
          simp only [calculatePIT, PIT_BRACKETS, pitLoop, bracketTaxable, refTaxPIT,
            a1, a3, a4, a6, a7, a9, a10, a11, b1, b2, b3, c1, c2, c3, c4, f1, f2, f3, f4, f5,
            g1, g2, g2b, g3, g3b, sub_self, le_refl, if_true, if_false]
          ring
        · have a10 : min (x - 800000 - 2200000 - 9000000) (25000000 - 12000000 : ℚ)
              = 13000000 := by
            rw [show (25000000 - 12000000 : ℚ) = 13000000 by norm_num]
            exact min_eq_right (by linarith)
          have a12 : ¬(x - 800000 - 2200000 - 9000000 - 13000000 ≤ 0) := by linarith
          have g4 : min x (25000000 : ℚ) = 25000000 := min_eq_right (by linarith)
          have g4b : max (0 : ℚ) (x - 12000000) = x - 12000000 := max_eq_right (by linarith)
          rcases le_or_lt x 50000000 with h5 | h5
          · have a13 : min (x - 800000 - 2200000 - 9000000 - 13000000)
                (50000000 - 25000000 : ℚ) = x - 800000 - 2200000 - 9000000 - 13000000 :=
              min_eq_left (by linarith)
            have a14 : max (0 : ℚ) (x - 800000 - 2200000 - 9000000 - 13000000)
                = x - 800000 - 2200000 - 9000000 - 13000000 := max_eq_right (by linarith)
            have f1 : min x (50000000 : ℚ) = x := min_eq_left (by linarith)
            have f2 : max (0 : ℚ) (x - 25000000) = x - 25000000 := max_eq_right (by linarith)
            have f3 : max (0 : ℚ) (x - 50000000) = 0 := max_eq_left (by linarith)
            simp only [calculatePIT, PIT_BRACKETS, pitLoop, bracketTaxable, refTaxPIT,
              a1, a3, a4, a6, a7, a9, a10, a12, a13, a14, b1, b2, b3, b4, c1, c2, c3, c4,
              f1, f2, f3, g1, g2, g2b, g3, g3b, g4, g4b,
              sub_self, le_refl, if_true, if_false]
            ring
          · have a13 : min (x - 800000 - 2200000 - 9000000 - 13000000)
                (50000000 - 25000000 : ℚ) = 25000000 := by
              rw [show (50000000 - 25000000 : ℚ) = 25000000 by norm_num]
              exact min_eq_right (by linarith)
            have a15 : ¬(x - 800000 - 2200000 - 9000000 - 13000000 - 25000000 ≤ 0) := by
              linarith
            have a16 : max (0 : ℚ) (x - 800000 - 2200000 - 9000000 - 13000000 - 25000000)
                = x - 800000 - 2200000 - 9000000 - 13000000 - 25000000 :=
              max_eq_right (by linarith)
            have g5 : min x (50000000 : ℚ) = 50000000 := min_eq_right (by linarith)
            have g5b : max (0 : ℚ) (x - 25000000) = x - 25000000 := max_eq_right (by linarith)
            have g6 : max (0 : ℚ) (x - 50000000) = x - 50000000 := max_eq_right (by linarith)
            simp only [calculatePIT, PIT_BRACKETS, pitLoop, bracketTaxable, refTaxPIT,
              a1, a3, a4, a6, a7, a9, a10, a12, a13, a15, a16, b1, b2, b3, b4, b5, c1, c2, c3, c4,
              g1, g2, g2b, g3, g3b, g4, g4b, g5, g5b, g6,
              sub_self, le_refl, if_true, if_false]
            ring

/-- The closed-form reference sum is monotone in the taxable amount. -/
theorem refTaxPIT_mono (x y : ℚ) (h : x ≤ y) : refTaxPIT x ≤ refTaxPIT y := by
  have t : ∀ u p : ℚ, max 0 (min x u - p) ≤ max 0 (min y u - p) := fun u p =>
    max_le_max le_rfl (sub_le_sub_right (min_le_min h le_rfl) p)
  have m1 := mul_le_mul_of_nonneg_left (t 800000 0) (by norm_num : (0 : ℚ) ≤ 0)
  have m2 := mul_le_mul_of_nonneg_left (t 3000000 800000)
    (by norm_num : (0 : ℚ) ≤ 0.15)
  have m3 := mul_le_mul_of_nonneg_left (t 12000000 3000000)
    (by norm_num : (0 : ℚ) ≤ 0.18)
  have m4 := mul_le_mul_of_nonneg_left (t 25000000 12000000)
    (by norm_num : (0 : ℚ) ≤ 0.21)
  have m5 := mul_le_mul_of_nonneg_left (t 50000000 25000000)
    (by norm_num : (0 : ℚ) ≤ 0.23)
  have m6 := mul_le_mul_of_nonneg_left
    (max_le_max (le_refl (0 : ℚ)) (sub_le_sub_right h 50000000))
    (by norm_num : (0 : ℚ) ≤ 0.25)
  unfold refTaxPIT
  linarith

/-- Every rate in the shipped bracket table is non-negative. -/
theorem PIT_BRACKETS_rate_nonneg : ∀ b ∈ PIT_BRACKETS, 0 ≤ b.rate := by
  intro b hb
  simp only [PIT_BRACKETS, List.mem_cons, List.not_mem_nil, or_false] at hb
  rcases hb with rfl | rfl | rfl | rfl | rfl | rfl <;> norm_num

/-- Loop invariant of `calculatePIT`: provided every band rate is
non-negative, every line item ever pushed has a strictly positive taxed
amount and a non-negative tax. -/
theorem pitLoop_breakdown_invariant (bs : List RateBand) :
    ∀ (r p t : ℚ) (bd : List LineItem),
      (∀ b ∈ bs, 0 ≤ b.rate) →
      (∀ li ∈ bd, 0 < li.amount ∧ 0 ≤ li.tax) →
      ∀ li ∈ (pitLoop bs r p t bd).breakdown, 0 < li.amount ∧ 0 ≤ li.tax := by
  induction bs with
  | nil =>
    intro r p t bd _hrates hbd li hli
    exact hbd li hli
  | cons b rest ih =>
    intro r p t bd hrates hbd li hli
    have hb : (0 : ℚ) ≤ b.rate := hrates b (List.mem_cons_self b rest)
    have hbd2 : ∀ li ∈ (if 0 < bracketTaxable b r p then
        bd ++ [⟨bracketLabel b p, b.rate, bracketTaxable b r p,
          bracketTaxable b r p * b.rate, b.citation⟩] else bd),
        0 < li.amount ∧ 0 ≤ li.tax := by
      intro li hli
      split_ifs at hli with hpos
      · rcases List.mem_append.1 hli with h | h
        · exact hbd li h
        · have : li = ⟨bracketLabel b p, b.rate, bracketTaxable b r p,
              bracketTaxable b r p * b.rate, b.citation⟩ := by
            simpa using h
          subst this
          exact ⟨hpos, mul_nonneg hpos.le hb⟩
      · exact hbd li hli
    have key : pitLoop (b :: rest) r p t bd =
        (if r - bracketTaxable b r p ≤ 0 then
          ⟨t + bracketTaxable b r p * b.rate,
            if 0 < bracketTaxable b r p then
              bd ++ [⟨bracketLabel b p, b.rate, bracketTaxable b r p,
                bracketTaxable b r p * b.rate, b.citation⟩] else bd⟩
        else pitLoop rest (r - bracketTaxable b r p)
          (match b.limit with | some l => l | none => p)
          (t + bracketTaxable b r p * b.rate)
          (if 0 < bracketTaxable b r p then
            bd ++ [⟨bracketLabel b p, b.rate, bracketTaxable b r p,
              bracketTaxable b r p * b.rate, b.citation⟩] else bd)) := by
      simp only [pitLoop]
    rw [key] at hli
    split_ifs at hli with hstop hpos hpos
    · exact hbd2 li (by rw [if_pos hpos]; exact hli)
    · exact hbd2 li (by rw [if_neg hpos]; exact hli)
    · exact ih (r - bracketTaxable b r p)
        (match b.limit with | some l => l | none => p)
        (t + bracketTaxable b r p * b.rate)
        (bd ++ [⟨bracketLabel b p, b.rate, bracketTaxable b r p,
          bracketTaxable b r p * b.rate, b.citation⟩])
        (fun b' hb' => hrates b' (List.mem_cons_of_mem b hb'))
        (fun li' hli' => hbd2 li' (by rw [if_pos hpos]; exact hli')) li hli
    · exact ih (r - bracketTaxable b r p)
        (match b.limit with | some l => l | none => p)
        (t + bracketTaxable b r p * b.rate) bd
        (fun b' hb' => hrates b' (List.mem_cons_of_mem b hb'))
        (fun li' hli' => hbd2 li' (by rw [if_neg hpos]; exact hli')) li hli

/-- The reconciliation shape used by the minimum-tax top-up: adding
`max 0 (f - c)` to `c` reaches the floor `f` exactly when `c` was below it
and changes nothing otherwise. -/
theorem topup_reconciliation (c f : ℚ) :
    f ≤ c + max 0 (f - c)
    ∧ (f ≤ c → max 0 (f - c) = 0)
    ∧ (c < f → c + max 0 (f - c) = f) := by
  refine ⟨?_, ?_, ?_⟩
  · rcases le_total (f - c) 0 with h | h
    · rw [max_eq_left h]; linarith
    · rw [max_eq_right h]; linarith
  · intro h
    exact max_eq_left (by linarith)
  · intro h
    rw [max_eq_right (by linarith)]; ring

/-- The `topUpTax` field of `calculateCIT`, expressed through the other
fields of the result. -/
theorem calculateCIT_topUpTax (p : ℚ) (small : Bool) (cg : ℚ) :
    (calculateCIT p small cg).topUpTax =
      max 0 (p * 0.15 -
        ((calculateCIT p small cg).citPayable +
          (calculateCIT p small cg).devLevy)) := rfl

/-- Claim C1: for every non-negative taxable amount and the default band
table, the allocator's `totalTax` equals the closed-form reference sum over
bands of rate times the clamped overlap of the interval from 0 to the
amount with the band, including exactly at every band boundary. -/
theorem pit_totalTax_matches_closed_form (x : ℚ) (hx : 0 ≤ x) :
    (calculatePIT x).totalTax = refTaxPIT x :=
  calculatePIT_totalTax_eq_ref x hx

/-- Witness for C1 at the first band boundary: the allocator agrees with
the closed form at 800000, where both are zero. -/
theorem pit_totalTax_matches_closed_form_witness :
    (calculatePIT 800000).totalTax = refTaxPIT 800000 ∧ refTaxPIT 800000 = 0 :=
  ⟨pit_totalTax_matches_closed_form 800000 (by norm_num),
   by norm_num [refTaxPIT, min_def, max_def]⟩

/-- Claim C8: the allocator's total tax is monotone in the taxable amount
over the default band table. -/
theorem pit_totalTax_monotone (x1 x2 : ℚ) (h0 : 0 ≤ x1) (h12 : x1 < x2) :
    (calculatePIT x1).totalTax ≤ (calculatePIT x2).totalTax := by
  rw [calculatePIT_totalTax_eq_ref x1 h0,
    calculatePIT_totalTax_eq_ref x2 (h0.trans h12.le)]
  exact refTaxPIT_mono x1 x2 h12.le

/-- Witness for C8 at 800000 < 1000000. -/
theorem pit_totalTax_monotone_witness :
    (calculatePIT 800000).totalTax ≤ (calculatePIT 1000000).totalTax :=
  pit_totalTax_monotone 800000 1000000 (by norm_num) (by norm_num)

/-- Claim C2: the minimum-tax floor holds after top-up: CIT plus levy plus
top-up is at least 15% of profit; the top-up vanishes when CIT plus levy
already meets the floor; and the sum lands exactly on the floor when CIT
plus levy is below it. -/
theorem cit_minimum_tax_floor (p : ℚ) (hp : 0 ≤ p) (small : Bool) (cg : ℚ)
    (hcg : 0 ≤ cg) :
    p * 0.15 ≤ (calculateCIT p small cg).citPayable +
      (calculateCIT p small cg).devLevy + (calculateCIT p small cg).topUpTax
    ∧ (p * 0.15 ≤ (calculateCIT p small cg).citPayable +
        (calculateCIT p small cg).devLevy →
        (calculateCIT p small cg).topUpTax = 0)
    ∧ ((calculateCIT p small cg).citPayable +
        (calculateCIT p small cg).devLevy < p * 0.15 →
        (calculateCIT p small cg).citPayable +
          (calculateCIT p small cg).devLevy +
          (calculateCIT p small cg).topUpTax = p * 0.15) := by
  obtain ⟨g1, g2, g3⟩ := topup_reconciliation
    ((calculateCIT p small cg).citPayable + (calculateCIT p small cg).devLevy)
    (p * 0.15)
  rw [calculateCIT_topUpTax]
  exact ⟨by linarith, fun h => g2 h, fun h => g3 h⟩

/-- Witness for C2 at profit 10000000, small company, no gains. -/
theorem cit_minimum_tax_floor_witness :
    (10000000 : ℚ) * 0.15 ≤ (calculateCIT 10000000 true 0).citPayable +
      (calculateCIT 10000000 true 0).devLevy +
      (calculateCIT 10000000 true 0).topUpTax
    ∧ ((10000000 : ℚ) * 0.15 ≤ (calculateCIT 10000000 true 0).citPayable +
        (calculateCIT 10000000 true 0).devLevy →
        (calculateCIT 10000000 true 0).topUpTax = 0)
    ∧ ((calculateCIT 10000000 true 0).citPayable +
        (calculateCIT 10000000 true 0).devLevy < (10000000 : ℚ) * 0.15 →
        (calculateCIT 10000000 true 0).citPayable +
          (calculateCIT 10000000 true 0).devLevy +
          (calculateCIT 10000000 true 0).topUpTax = (10000000 : ℚ) * 0.15) :=
  cit_minimum_tax_floor 10000000 (by norm_num) true 0 (by norm_num)

/-- Claim C9: with the shipped exact rate constants, a non-small company
never receives a top-up (0.34 of profit always meets the 0.15 floor); a
small company's top-up is exactly 0.11 of profit, so a strictly positive
top-up forces a small company with strictly positive profit. -/
theorem cit_topup_only_small_companies (p : ℚ) (hp : 0 ≤ p) (cg : ℚ) :
    (calculateCIT p false cg).topUpTax = 0
    ∧ (calculateCIT p true cg).topUpTax = 0.11 * p
    ∧ (∀ small : Bool, 0 < (calculateCIT p small cg).topUpTax →
        small = true ∧ 0 < p) := by
  have hfalse : (calculateCIT p false cg).topUpTax = 0 := by
    rw [calculateCIT_topUpTax]
    refine max_eq_left ?_
    have h1 : (calculateCIT p false cg).citPayable = p * 0.30 := rfl
    have h2 : (calculateCIT p false cg).devLevy = p * 0.04 := rfl
    rw [h1, h2]; linarith
  have htrue : (calculateCIT p true cg).topUpTax = 0.11 * p := by
    rw [calculateCIT_topUpTax]
    have h1 : (calculateCIT p true cg).citPayable = p * 0 := rfl
    have h2 : (calculateCIT p true cg).devLevy = p * 0.04 := rfl
    rw [h1, h2, max_eq_right (by linarith)]
    ring
  refine ⟨hfalse, htrue, ?_⟩
  intro small hpos
  cases small with
  | false => rw [hfalse] at hpos; exact absurd hpos (lt_irrefl 0)
  | true =>
    refine ⟨rfl, ?_⟩
    rw [htrue] at hpos
    linarith

/-- Witness for C9 at profit 10000000, no gains. -/
theorem cit_topup_only_small_companies_witness :
    (calculateCIT 10000000 false 0).topUpTax = 0
    ∧ (calculateCIT 10000000 true 0).topUpTax = 0.11 * 10000000
    ∧ (∀ small : Bool, 0 < (calculateCIT 10000000 small 0).topUpTax →
        small = true ∧ (0 : ℚ) < 10000000) :=
  cit_topup_only_small_companies 10000000 (by norm_num) 0

/-- Claim C4: the concrete small-company scenario: profit 10000000, small,
no gains gives CIT 0, levy 400000, combined current tax 400000, floor
1500000, top-up 1100000 and total company tax 1500000. -/
theorem cit_small_company_example :
    (calculateCIT 10000000 true 0).citPayable = 0
    ∧ (calculateCIT 10000000 true 0).devLevy = 400000
    ∧ (calculateCIT 10000000 true 0).citPayable +
        (calculateCIT 10000000 true 0).devLevy = 400000
    ∧ (calculateCIT 10000000 true 0).minTaxFloor = 1500000
    ∧ (calculateCIT 10000000 true 0).topUpTax = 1100000
    ∧ (calculateCIT 10000000 true 0).totalCompanyTax = 1500000 := by
  norm_num [calculateCIT, CIT_RATES, max_def]

/-- Claim C3: for every non-negative Individual input record the dispatcher
computes the taxable base as the clamped difference of gross income and
deductions, runs the allocator independently on the base and on capital
gains, and derives total liability, net payable, gross considered and net
income by the stated formulas (withholding credits enter net payable
only, never net income). -/
theorem dispatcher_individual_formulas (g d cg wht : ℚ) (small : Bool)
    (p : ℚ) (hg : 0 ≤ g) (hd : 0 ≤ d) (hcg : 0 ≤ cg) (hwht : 0 ≤ wht) :
    computeResults "Individual" ⟨g, d, cg, wht, small, p⟩ =
      Results.individual
        { taxableBase := max 0 (g - d)
          pitTax := (calculatePIT (max 0 (g - d))).totalTax
          pitBreakdown := (calculatePIT (max 0 (g - d))).breakdown
          cgtTax := (calculatePIT cg).totalTax
          totalLiability := (calculatePIT (max 0 (g - d))).totalTax +
            (calculatePIT cg).totalTax
          netPayable := max 0 ((calculatePIT (max 0 (g - d))).totalTax +
            (calculatePIT cg).totalTax - wht)
          gross := g + cg
          netIncome := (g + cg) - ((calculatePIT (max 0 (g - d))).totalTax +
            (calculatePIT cg).totalTax) } := by
  unfold computeResults
  rw [if_pos (Or.inl rfl)]

/-- Witness for C3 at the spec's fifth example scenario. -/
theorem dispatcher_individual_formulas_witness :
    computeResults "Individual" ⟨2000000, 500000, 0, 50000, false, 0⟩ =
      Results.individual
        { taxableBase := max 0 ((2000000 : ℚ) - 500000)
          pitTax := (calculatePIT (max 0 ((2000000 : ℚ) - 500000))).totalTax
          pitBreakdown :=
            (calculatePIT (max 0 ((2000000 : ℚ) - 500000))).breakdown
          cgtTax := (calculatePIT 0).totalTax
          totalLiability :=
            (calculatePIT (max 0 ((2000000 : ℚ) - 500000))).totalTax +
              (calculatePIT 0).totalTax
          netPayable :=
            max 0 ((calculatePIT (max 0 ((2000000 : ℚ) - 500000))).totalTax +
              (calculatePIT 0).totalTax - 50000)
          gross := (2000000 : ℚ) + 0
          netIncome := ((2000000 : ℚ) + 0) -
            ((calculatePIT (max 0 ((2000000 : ℚ) - 500000))).totalTax +
              (calculatePIT 0).totalTax) } :=
  dispatcher_individual_formulas 2000000 500000 0 50000 false 0
    (by norm_num) (by norm_num) (by norm_num) (by norm_num)

/-- Any role other than Individual and Advisor reaches the company branch
of the dispatcher; shared helper spelling out the resulting record. -/
theorem computeResults_company_branch (role : String) (i : Inputs)
    (h1 : role ≠ "Individual") (h2 : role ≠ "Advisor") :
    computeResults role i = Results.company
      { citPayable :=
          (calculateCIT i.profitBeforeTax i.isSmallCompany i.cgtGains).citPayable
        devLevy :=
          (calculateCIT i.profitBeforeTax i.isSmallCompany i.cgtGains).devLevy
        companyCGT :=
          (calculateCIT i.profitBeforeTax i.isSmallCompany i.cgtGains).companyCGT
        topUpTax :=
          (calculateCIT i.profitBeforeTax i.isSmallCompany i.cgtGains).topUpTax
        totalCompanyTax :=
          (calculateCIT i.profitBeforeTax i.isSmallCompany i.cgtGains).totalCompanyTax
        minTaxFloor :=
          (calculateCIT i.profitBeforeTax i.isSmallCompany i.cgtGains).minTaxFloor
        totalLiability :=
          (calculateCIT i.profitBeforeTax i.isSmallCompany i.cgtGains).totalCompanyTax
        netPayable := max 0
          ((calculateCIT i.profitBeforeTax i.isSmallCompany i.cgtGains).totalCompanyTax
            - i.whtCredits)
        gross := i.profitBeforeTax + i.cgtGains
        netIncome := (i.profitBeforeTax + i.cgtGains) -
          (calculateCIT i.profitBeforeTax i.isSmallCompany i.cgtGains).totalCompanyTax } := by
  unfold computeResults
  rw [if_neg (fun h => h.elim h1 h2)]

/-- Claim C10: every role string other than Individual and Advisor takes
the company branch and yields the Company-variant result assembled from
`calculateCIT`, with no error; and role Advisor computes exactly what role
Individual computes. -/
theorem role_dispatch_fallback (role : String) (i : Inputs) :
    (role ≠ "Individual" → role ≠ "Advisor" →
      computeResults role i = Results.company
        { citPayable :=
            (calculateCIT i.profitBeforeTax i.isSmallCompany i.cgtGains).citPayable
          devLevy :=
            (calculateCIT i.profitBeforeTax i.isSmallCompany i.cgtGains).devLevy
          companyCGT :=
            (calculateCIT i.profitBeforeTax i.isSmallCompany i.cgtGains).companyCGT
          topUpTax :=
            (calculateCIT i.profitBeforeTax i.isSmallCompany i.cgtGains).topUpTax
          totalCompanyTax :=
            (calculateCIT i.profitBeforeTax i.isSmallCompany i.cgtGains).totalCompanyTax
          minTaxFloor :=
            (calculateCIT i.profitBeforeTax i.isSmallCompany i.cgtGains).minTaxFloor
          totalLiability :=
            (calculateCIT i.profitBeforeTax i.isSmallCompany i.cgtGains).totalCompanyTax
          netPayable := max 0
            ((calculateCIT i.profitBeforeTax i.isSmallCompany i.cgtGains).totalCompanyTax
              - i.whtCredits)
          gross := i.profitBeforeTax + i.cgtGains
          netIncome := (i.profitBeforeTax + i.cgtGains) -
            (calculateCIT i.profitBeforeTax i.isSmallCompany i.cgtGains).totalCompanyTax })
    ∧ computeResults "Advisor" i = computeResults "Individual" i := by
  constructor
  · intro h1 h2
    exact computeResults_company_branch role i h1 h2
  · unfold computeResults
    rw [if_pos (Or.inr rfl), if_pos (Or.inl rfl)]

/-- Witness for C10 at the empty role string and a sample input. -/
theorem role_dispatch_fallback_witness :
    computeResults "" ⟨0, 0, 0, 0, false, 10000000⟩ = Results.company
      { citPayable := (calculateCIT 10000000 false 0).citPayable
        devLevy := (calculateCIT 10000000 false 0).devLevy
        companyCGT := (calculateCIT 10000000 false 0).companyCGT
        topUpTax := (calculateCIT 10000000 false 0).topUpTax
        totalCompanyTax := (calculateCIT 10000000 false 0).totalCompanyTax
        minTaxFloor := (calculateCIT 10000000 false 0).minTaxFloor
        totalLiability := (calculateCIT 10000000 false 0).totalCompanyTax
        netPayable := max 0 ((calculateCIT 10000000 false 0).totalCompanyTax - 0)
        gross := (10000000 : ℚ) + 0
        netIncome := ((10000000 : ℚ) + 0) -
          (calculateCIT 10000000 false 0).totalCompanyTax } :=
  (role_dispatch_fallback "" ⟨0, 0, 0, 0, false, 10000000⟩).1
    (by decide) (by decide)

/-- Counterexample to claim C6 as stated: at the invalid input of a
negative gross income (-1000) the dispatcher raises no validation error; it
silently clamps the taxable base to 0 and returns a numeric
zero-liability result. -/
theorem dispatcher_no_failfast_on_negative_input :
    computeResults "Individual" ⟨-1000, 0, 0, 0, false, 0⟩ =
      Results.individual ⟨0, 0, [], 0, 0, 0, -1000, -1000⟩ := by
  have hpit0 : calculatePIT 0 = ⟨0, []⟩ := by
    norm_num [calculatePIT, PIT_BRACKETS, pitLoop, bracketTaxable,
      min_def, max_def]
  unfold computeResults
  rw [if_pos (Or.inl rfl)]
  norm_num [max_def, hpit0]

/-- Claim C6, amended: the engine does not fail fast on invalid input; it
is total.  A negative amount is silently clamped (a negative gross income
yields taxable base 0 and zero liability on the Individual branch) and an
unknown taxpayer category silently takes the company branch, always
returning a numeric result. -/
theorem dispatcher_silently_coerces_invalid_input (g : ℚ) (hg : g < 0)
    (role : String) (i : Inputs) (h1 : role ≠ "Individual")
    (h2 : role ≠ "Advisor") :
    computeResults "Individual" ⟨g, 0, 0, 0, false, 0⟩ =
      Results.individual ⟨0, 0, [], 0, 0, 0, g, g⟩
    ∧ ∃ cr : CompanyResults, computeResults role i = Results.company cr := by
  constructor
  · have h0 : max (0 : ℚ) g = 0 := max_eq_left hg.le
    have hpit0 : calculatePIT 0 = ⟨0, []⟩ := by
      norm_num [calculatePIT, PIT_BRACKETS, pitLoop, bracketTaxable,
        min_def, max_def]
    unfold computeResults
    rw [if_pos (Or.inl rfl)]
    norm_num [h0, hpit0]
  · exact ⟨_, computeResults_company_branch role i h1 h2⟩

/-- Witness for the amended C6 at gross income -5 and role Company. -/
theorem dispatcher_silently_coerces_invalid_input_witness :
    computeResults "Individual" ⟨-5, 0, 0, 0, false, 0⟩ =
      Results.individual ⟨0, 0, [], 0, 0, 0, -5, -5⟩
    ∧ ∃ cr : CompanyResults,
        computeResults "Company" ⟨0, 0, 0, 0, false, 0⟩ =
          Results.company cr :=
  dispatcher_silently_coerces_invalid_input (-5) (by norm_num) "Company"
    ⟨0, 0, 0, 0, false, 0⟩ (by decide) (by decide)

/-- Counterexample to claim C5 as stated: at taxable amount 800000 the
breakdown holds exactly one line item and its tax field is 0 (the zero-rate
first band is pushed whenever its taxed amount is positive), so the tax
fields are not all strictly positive. -/
theorem pit_breakdown_tax_zero_line_item :
    (calculatePIT 800000).breakdown.map LineItem.tax = [0] := by
  norm_num [calculatePIT, PIT_BRACKETS, pitLoop, bracketTaxable]

/-- Claim C5, amended: every line item in the breakdown has a strictly
positive taxed amount (zero-amount bands never appear) and a non-negative
tax; the tax itself is zero on the zero-rate first band. -/
theorem pit_breakdown_amount_pos_tax_nonneg (x : ℚ) (hx : 0 ≤ x) :
    ∀ li ∈ (calculatePIT x).breakdown, 0 < li.amount ∧ 0 ≤ li.tax :=
  pitLoop_breakdown_invariant PIT_BRACKETS x 0 0 []
    PIT_BRACKETS_rate_nonneg (fun li hli => absurd hli (List.not_mem_nil li))

/-- Witness for the amended C5 at taxable amount 1000000. -/
theorem pit_breakdown_amount_pos_tax_nonneg_witness :
    (0 : ℚ) ≤ 1000000 ∧
      ∀ li ∈ (calculatePIT 1000000).breakdown, 0 < li.amount ∧ 0 ≤ li.tax :=
  ⟨by norm_num, pit_breakdown_amount_pos_tax_nonneg 1000000 (by norm_num)⟩

/-- Claim C7: the attached citation list follows the fixed rules: the
general income-tax citation of the category is always present, the
capital-gains citation is present exactly when capital gains are positive,
the development-levy and minimum-tax-floor citations are present exactly on
the company branch, and the withholding-credit citation is present exactly
when withholding credits are positive. -/
theorem citation_attachment_rules (role : String) (i : Inputs) :
    ((role = "Individual" ∨ role = "Advisor") →
      STATUTORY_CITATIONS.PIT_GENERAL ∈ relevantCitations role i
      ∧ STATUTORY_CITATIONS.DEV_LEVY ∉ relevantCitations role i
      ∧ STATUTORY_CITATIONS.MIN_TAX_FLOOR ∉ relevantCitations role i
      ∧ (STATUTORY_CITATIONS.CGT_INDIVIDUAL ∈ relevantCitations role i ↔
          0 < i.cgtGains))
    ∧ (¬(role = "Individual" ∨ role = "Advisor") →
      (if i.isSmallCompany then STATUTORY_CITATIONS.CIT_SMALL
        else STATUTORY_CITATIONS.CIT_STANDARD) ∈ relevantCitations role i
      ∧ STATUTORY_CITATIONS.DEV_LEVY ∈ relevantCitations role i
      ∧ STATUTORY_CITATIONS.MIN_TAX_FLOOR ∈ relevantCitations role i
      ∧ (STATUTORY_CITATIONS.CGT_COMPANY ∈ relevantCitations role i ↔
          0 < i.cgtGains))
    ∧ (STATUTORY_CITATIONS.WHT_CREDIT ∈ relevantCitations role i ↔
        0 < i.whtCredits) := by
  by_cases hrole : role = "Individual" ∨ role = "Advisor" <;>
    by_cases hcg : 0 < i.cgtGains <;>
      by_cases hwht : 0 < i.whtCredits <;>
        cases hsmall : i.isSmallCompany <;>
          simp [relevantCitations, hrole, hcg, hwht, hsmall,
            STATUTORY_CITATIONS.PIT_GENERAL, STATUTORY_CITATIONS.CGT_INDIVIDUAL,
            STATUTORY_CITATIONS.DEV_LEVY, STATUTORY_CITATIONS.MIN_TAX_FLOOR,
            STATUTORY_CITATIONS.CIT_SMALL, STATUTORY_CITATIONS.CIT_STANDARD,
            STATUTORY_CITATIONS.CGT_COMPANY, STATUTORY_CITATIONS.WHT_CREDIT,
            Citation.mk.injEq]

/-- Witness for C7 at role Individual with positive gains and no credits. -/
theorem citation_attachment_rules_witness :
    STATUTORY_CITATIONS.PIT_GENERAL ∈
        relevantCitations "Individual" ⟨1000000, 0, 500, 0, false, 0⟩
    ∧ STATUTORY_CITATIONS.DEV_LEVY ∉
        relevantCitations "Individual" ⟨1000000, 0, 500, 0, false, 0⟩
    ∧ STATUTORY_CITATIONS.MIN_TAX_FLOOR ∉
        relevantCitations "Individual" ⟨1000000, 0, 500, 0, false, 0⟩
    ∧ (STATUTORY_CITATIONS.CGT_INDIVIDUAL ∈
        relevantCitations "Individual" ⟨1000000, 0, 500, 0, false, 0⟩ ↔
        (0 : ℚ) < 500) :=
  (citation_attachment_rules "Individual"
    ⟨1000000, 0, 500, 0, false, 0⟩).1 (Or.inl rfl)
